import Mathlib

/-!
Verification development for `forex_alpha_signals_unified_render.py`.

The embedding models the two core functions of the module:

* `obter_dados` — the series fetcher (lines 49–60 of the source): it calls the
  upstream `yf.download`, returns `None` on an exception or an empty payload,
  and drops rows containing missing values before returning the frame.
* `analisar_ativo` — the signal evaluator (lines 62–105): it guards on a
  minimum length of 21 bars, computes six indicator columns over the close
  column with the `ta` library's default semantics, drops warm-up rows in
  place, and applies a threshold decision rule to the last remaining row.

Numbers are modelled as exact rationals `ℚ` (the Python code uses IEEE
doubles; every claim below is about comparisons and exact algebraic
relationships between the computed quantities, which the rational model
expresses directly).  A pandas `NaN` cell is modelled as `Option.none`.
Mutation of the caller's dataframe is modelled by returning the final state of
the dataframe object alongside the result, and the Telegram side effect by
returning the list of messages handed to `send_telegram_message`.
-/

/-- A cell of the raw `Close` column as the evaluator receives it: either a
numeric price or a malformed (non-numeric) value.  A malformed value makes the
`ta` indicator constructors raise, which the evaluator's `try` block catches. -/
inductive Val where
  | num (q : ℚ)
  | malformed
deriving DecidableEq

/-- Extract the numeric close prices of a series; `none` when some cell is
malformed, in which case the first indicator computation
(`EMAIndicator(df['Close'], window=9)`) raises. -/
def closes? : List Val → Option (List ℚ)
  | [] => some []
  | Val.num q :: xs => (closes? xs).map (fun cs => q :: cs)
  | Val.malformed :: _ => none

/-- Cons a rational onto a list after forcing its value: the match on the
integer numerator makes definitional reduction compute `y` once before the
cell is produced, so that kernel evaluation of a concrete series runs
iteratively instead of building nested thunk towers.  `seqCons_eq` shows it is
plain `List.cons`. -/
def seqCons (y : ℚ) (rest : List ℚ) : List ℚ :=
  match y.num with
  | Int.ofNat _ => y :: rest
  | Int.negSucc _ => y :: rest

theorem seqCons_eq (y : ℚ) (rest : List ℚ) : seqCons y rest = y :: rest := by
  unfold seqCons
  cases y.num <;> rfl

/-- Recursive exponential smoothing, pandas `ewm(..., adjust=False)`:
`y_i = (1 - α) * y_{i-1} + α * x_i`, continuing from the value `prev`. -/
def ewmFrom (α : ℚ) (prev : ℚ) : List ℚ → List ℚ
  | [] => []
  | x :: xs => seqCons ((1 - α) * prev + α * x) (ewmFrom α ((1 - α) * prev + α * x) xs)

/-- The full sequence of `ewm(adjust=False).mean()` values: the first value
seeds the recursion (`y_0 = x_0`). -/
def ewmList (α : ℚ) : List ℚ → List ℚ
  | [] => []
  | x :: xs => x :: ewmFrom α x xs

/-- One column produced by `series.ewm(alpha=α, min_periods=m, adjust=False).mean()`
on a NaN-free input series: position `i` is `NaN` (here `none`) while fewer
than `m` observations have been seen, and the recursion value afterwards. -/
def ewmCol (α : ℚ) (minPeriods : ℕ) (xs : List ℚ) (i : ℕ) : Option ℚ :=
  if i + 1 < minPeriods then none else (ewmList α xs).get? i

/-- The `ta` helper `_ema(series, w)` = `series.ewm(span=w, min_periods=w,
adjust=False).mean()`, i.e. smoothing factor `α = 2 / (w + 1)`.  This is what
`EMAIndicator(close, window=w).ema_indicator()` computes. -/
def emaCol (w : ℕ) (cs : List ℚ) (i : ℕ) : Option ℚ :=
  ewmCol (2 / ((w : ℚ) + 1)) w cs i

/-- `MACD(close).macd()` with the `ta` defaults `window_fast=12`,
`window_slow=26`: the difference of the fast and slow EMA columns, `NaN`
wherever either operand is `NaN`. -/
def macdCol (cs : List ℚ) (i : ℕ) : Option ℚ :=
  match emaCol 12 cs i, emaCol 26 cs i with
  | some f, some s => some (f - s)
  | _, _ => none

/-- Per-bar one-step differences, pandas `close.diff(1)` restricted to the
defined positions (the position-0 `NaN` is handled by `upList`/`downList`). -/
def diffs : List ℚ → List ℚ
  | [] => []
  | [_] => []
  | a :: b :: xs => (b - a) :: diffs (b :: xs)

/-- `diff.where(diff > 0, 0.0)` from `ta`'s `RSIIndicator`: the position-0
`NaN` difference compares false and becomes `0.0`. -/
def upList (cs : List ℚ) : List ℚ :=
  match cs with
  | [] => []
  | _ :: _ => 0 :: (diffs cs).map (fun d => if 0 < d then d else 0)

/-- `-diff.where(diff < 0, 0.0)` from `ta`'s `RSIIndicator`. -/
def downList (cs : List ℚ) : List ℚ :=
  match cs with
  | [] => []
  | _ :: _ => 0 :: (diffs cs).map (fun d => if d < 0 then -d else 0)

/-- `RSIIndicator(close).rsi()` with the default 14-period window:
`emaup`/`emadn` are `ewm(alpha=1/14, min_periods=14, adjust=False)` means of
the up/down move series, and the result is
`np.where(emadn == 0, 100, 100 - 100 / (1 + emaup / emadn))`. -/
def rsiCol (cs : List ℚ) (i : ℕ) : Option ℚ :=
  match ewmCol (1 / 14) 14 (upList cs) i, ewmCol (1 / 14) 14 (downList cs) i with
  | some u, some d => some (if d = 0 then 100 else 100 - 100 / (1 + u / d))
  | _, _ => none

/-- The 20-bar window ending at position `i` (pandas `rolling(20)`). -/
def rollWindow (w : ℕ) (cs : List ℚ) (i : ℕ) : List ℚ :=
  (cs.take (i + 1)).drop (i + 1 - w)

/-- Rolling mean of the 20-bar window (`bollinger` middle band). -/
def bbMean (w : ℕ) (cs : List ℚ) (i : ℕ) : ℚ :=
  (rollWindow w cs i).sum / (w : ℚ)

/-- Rolling population variance (`std(ddof=0)` squared) of the 20-bar window. -/
def bbVar (w : ℕ) (cs : List ℚ) (i : ℕ) : ℚ :=
  ((rollWindow w cs i).map (fun x => x * x)).sum / (w : ℚ) - bbMean w cs i * bbMean w cs i

/-- `BollingerBands(close, window=20, window_dev=2).bollinger_hband()`:
defined (non-`NaN`) exactly when the 20-bar window is full.  Its numeric value
is `mean + 2 * sqrt(variance)`, which is irrational in general; since the
program never reads this column's value (it only participates in `dropna`),
the cell is recorded as the pair `(mean, variance)` that determines it. -/
def bbHighCol (cs : List ℚ) (i : ℕ) : Option (ℚ × ℚ) :=
  if i + 1 < 20 ∨ cs.length ≤ i then none else some (bbMean 20 cs i, bbVar 20 cs i)

/-- `bollinger.bollinger_lband()`: same definedness as the upper band; its
value is `mean - 2 * sqrt(variance)`, recorded as the determining pair. -/
def bbLowCol (cs : List ℚ) (i : ℕ) : Option (ℚ × ℚ) :=
  if i + 1 < 20 ∨ cs.length ≤ i then none else some (bbMean 20 cs i, bbVar 20 cs i)

/-- One row of the dataframe after the six indicator-column assignments
(lines 70–76): the close plus the six indicator cells, each possibly `NaN`. -/
structure IndRow where
  close : ℚ
  ema9 : Option ℚ
  ema21 : Option ℚ
  macd : Option ℚ
  rsi : Option ℚ
  bbHigh : Option (ℚ × ℚ)
  bbLow : Option (ℚ × ℚ)
deriving DecidableEq

/-- One fully-defined row, as survives `df.dropna(inplace=True)` (line 77). -/
structure FullRow where
  close : ℚ
  ema9 : ℚ
  ema21 : ℚ
  macd : ℚ
  rsi : ℚ
  bbHigh : ℚ × ℚ
  bbLow : ℚ × ℚ
deriving DecidableEq

/-- The dataframe after the assignments of lines 70–76: row `i` pairs the
close with the six indicator cells at position `i`. -/
def indicatorRows (cs : List ℚ) : List IndRow :=
  (List.range cs.length).map (fun i =>
    { close := cs.getD i 0
      ema9 := emaCol 9 cs i
      ema21 := emaCol 21 cs i
      macd := macdCol cs i
      rsi := rsiCol cs i
      bbHigh := bbHighCol cs i
      bbLow := bbLowCol cs i })

/-- `dropna` keeps a row exactly when every indicator cell is defined. -/
def toFullRow? (r : IndRow) : Option FullRow :=
  match r.ema9, r.ema21, r.macd, r.rsi, r.bbHigh, r.bbLow with
  | some a, some b, some c, some d, some e, some f =>
      some ⟨r.close, a, b, c, d, e, f⟩
  | _, _, _, _, _, _ => none

/-- `df.dropna(inplace=True)` (line 77) applied to the indicator rows. -/
def dropnaRows (rows : List IndRow) : List FullRow :=
  rows.filterMap toFullRow?

/-- The dataframe contents after indicator computation and `dropna`. -/
def fullRows (cs : List ℚ) : List FullRow :=
  dropnaRows (indicatorRows cs)

/-- The dictionary returned for a non-neutral signal (lines 94–101). -/
structure Signal where
  ativo : String
  sinal : String
  preco_entrada : ℚ
  stop_loss : ℚ
  take_profit : ℚ
  mensagem : String
deriving DecidableEq

/-- The state of the caller's dataframe object when `analisar_ativo` returns:
either untouched, or augmented with the six indicator columns and shorn of
its warm-up rows by the in-place `dropna`. -/
inductive DfAfter where
  | unchanged
  | augmented (rows : List FullRow)
deriving DecidableEq

/-- Everything observable about one `analisar_ativo` call: the returned value
(`None` or a signal dictionary), the messages handed to
`send_telegram_message`, whether the `try` block (indicator computation) was
entered, and the final state of the caller's dataframe object. -/
structure EvalResult where
  signal : Option Signal
  sent : List String
  computed : Bool
  dfAfter : DfAfter
deriving DecidableEq

/-- Nearest integer to `n / d` (for `d > 0`) with ties to even, the rounding
used when Python formats a value with `:.4f`. -/
def roundHalfEven (n : ℤ) (d : ℤ) : ℤ :=
  let f := Int.fdiv n d
  let r := n - f * d
  if 2 * r < d then f else if d < 2 * r then f + 1 else if f % 2 = 0 then f else f + 1

/-- Left-pad the decimal digits of `n` with zeros to four places. -/
def pad4 (n : ℕ) : String :=
  let s := toString n
  String.mk (List.replicate (4 - s.length) '0') ++ s

/-- Python's `f"{x:.4f}"` on a nonnegative scaled integer `n` of hundredths of
basis points: digits of `n / 10000`, a dot, and four fractional digits. -/
def fmt4nat (n : ℕ) : String :=
  toString (n / 10000) ++ "." ++ pad4 (n % 10000)

/-- Python's `f"{x:.4f}"` modelled on the exact rational: round to four
decimal places (ties to even) and render.  (The Python code formats the IEEE
double nearest to the computed value; over the rational model the rounding is
applied to the exact value instead.) -/
def fmt4 (q : ℚ) : String :=
  let m := roundHalfEven (q.num * 10000) (q.den : ℤ)
  if m < 0 then "-" ++ fmt4nat m.natAbs else fmt4nat m.natAbs

/-- The f-string of line 92:
`f"Sinal para {ativo_nome} ({mercado_nome}): {sinal} @ {last_row['Close']:.4f}"`. -/
def mkMensagem (ativo_nome mercado_nome sinal : String) (close : ℚ) : String :=
  "Sinal para " ++ ativo_nome ++ " (" ++ mercado_nome ++ "): " ++ sinal ++
    " @ " ++ fmt4 close

/-- The decision rule of lines 85–89 applied to the last remaining row. -/
def decisao (r : FullRow) : String :=
  if r.close > r.ema9 ∧ r.rsi < 30 then "Compra"
  else if r.close < r.ema9 ∧ r.rsi > 70 then "Venda"
  else "Neutro"

/-- The dictionary literal of lines 94–101: entry is the last close; the stop
and target conditionals are keyed on `sinal == "Compra"`, and the `Venda`
target reuses `stop_dev` (line 99). -/
def buildSignal (ativo_nome : String) (sd td : ℚ) (r : FullRow) (sinal mensagem : String) :
    Signal :=
  { ativo := ativo_nome
    sinal := sinal
    preco_entrada := r.close
    stop_loss := if sinal = "Compra" then r.close * (1 - sd) else r.close * (1 + sd)
    take_profit := if sinal = "Compra" then r.close * (1 + td) else r.close * (1 - sd)
    mensagem := mensagem }

/-- The body of the `try` block (lines 69–102), as the `Except` it produces:
an error when a malformed close makes the first indicator constructor raise,
otherwise the returned value, the Telegram messages sent, and the rows left in
the mutated dataframe. -/
def analisar_try_body (l : List Val) (ativo_nome mercado_nome : String) (sd td : ℚ) :
    Except String (Option Signal × List String × List FullRow) :=
  match closes? l with
  | none => Except.error "could not convert string to float"
  | some cs =>
    let full := fullRows cs
    match full.getLast? with
    | none => Except.ok (none, [], full)
    | some last_row =>
      let sinal := decisao last_row
      if sinal = "Neutro" then Except.ok (none, [], full)
      else
        let mensagem := mkMensagem ativo_nome mercado_nome sinal last_row.close
        Except.ok (some (buildSignal ativo_nome sd td last_row sinal mensagem),
          [mensagem], full)

/-- `analisar_ativo` (lines 62–105): the `None`/length guard of line 64 runs
before the `try` block; any exception inside the block is caught and converted
to `None` (lines 103–105), leaving the dataframe untouched because the raise
happens before the first column assignment lands. -/
def analisar_ativo (df : Option (List Val)) (ativo_nome mercado_nome : String)
    (sd td : ℚ) : EvalResult :=
  match df with
  | none => ⟨none, [], false, DfAfter.unchanged⟩
  | some l =>
    if l.length < 21 then ⟨none, [], false, DfAfter.unchanged⟩
    else
      match analisar_try_body l ativo_nome mercado_nome sd td with
      | Except.error _ => ⟨none, [], true, DfAfter.unchanged⟩
      | Except.ok (sig, snt, full) => ⟨sig, snt, true, DfAfter.augmented full⟩

/-- A row of the raw frame `yf.download` returns: the column cells
(Open, High, Low, Close, Adj Close, Volume), `none` standing for `NaN`. -/
abbrev Bar := List (Option ℚ)

/-- The outcome of the upstream `yf.download(ticker, period=..., interval=tf)`
call: a payload frame, or an exception from the transport. -/
inductive FetchResult where
  | ok (rows : List Bar)
  | raise (e : String)
deriving DecidableEq

/-- The `period` argument of line 52: `"60d" if tf in ["15m", "30m"] else "2y"`. -/
def periodFor (tf : String) : String :=
  if tf = "15m" ∨ tf = "30m" then "60d" else "2y"

/-- `obter_dados` (lines 49–60), over an explicit upstream `download`
function: an exception gives `None`, an empty payload gives `None`, and rows
containing a missing value are dropped in place before the frame is returned. -/
def obter_dados (download : String → String → String → FetchResult)
    (ticker tf : String) : Option (List Bar) :=
  match download ticker (periodFor tf) tf with
  | FetchResult.raise _ => none
  | FetchResult.ok data =>
    if data.isEmpty then none
    else some (data.filter (fun b => b.all Option.isSome))

/-!
The Batteries rational arithmetic is marked irreducible, which blocks
`decide`-style evaluation of the embedding on concrete series; the operations
are restored to the ordinary reducibility of a `def` so that concrete
witnesses can be checked by evaluation.
-/

set_option allowUnsafeReducibility true
attribute [local semireducible] Rat.add Rat.mul Rat.sub Rat.inv

/-! ### Basic facts about the embedding -/

theorem closes?_length {l : List Val} {cs : List ℚ} (h : closes? l = some cs) :
    cs.length = l.length := by
  induction l generalizing cs with
  | nil =>
    simp only [closes?, Option.some.injEq] at h
    subst h
    rfl
  | cons x xs ih =>
    cases x with
    | num q =>
      simp only [closes?] at h
      cases hx : closes? xs with
      | none => rw [hx] at h; simp at h
      | some cs' =>
        rw [hx] at h
        simp at h
        subst h
        simp [ih hx]
    | malformed => simp [closes?] at h

theorem emaCol_none_of_lt {w : ℕ} {cs : List ℚ} {i : ℕ} (h : i + 1 < w) :
    emaCol w cs i = none := by
  simp [emaCol, ewmCol, h]

theorem macdCol_none_of_lt {cs : List ℚ} {i : ℕ} (h : i < 25) :
    macdCol cs i = none := by
  unfold macdCol
  rw [emaCol_none_of_lt (w := 26) (by omega)]
  cases emaCol 12 cs i <;> rfl

theorem toFullRow?_none_of_ema9 {r : IndRow} (h : r.ema9 = none) :
    toFullRow? r = none := by
  unfold toFullRow?
  rw [h]

theorem toFullRow?_none_of_macd {r : IndRow} (h : r.macd = none) :
    toFullRow? r = none := by
  unfold toFullRow?
  rw [h]
  cases h9 : r.ema9 <;> cases h21 : r.ema21 <;> rfl

theorem length_filterMap_lt_of_none {α β : Type} (f : α → Option β) (l : List α)
    (a : α) (ha : a ∈ l) (hfa : f a = none) :
    (l.filterMap f).length < l.length := by
  induction l with
  | nil => cases ha
  | cons b t ih =>
    rcases List.mem_cons.mp ha with h | h
    · subst h
      rw [List.filterMap_cons_none hfa]
      exact Nat.lt_succ_of_le (List.length_filterMap_le f t)
    · cases hfb : f b with
      | none =>
        rw [List.filterMap_cons_none hfb]
        exact Nat.lt_succ_of_le (List.length_filterMap_le f t)
      | some c =>
        rw [List.filterMap_cons_some hfb]
        simpa using ih h

theorem fullRows_length_lt {cs : List ℚ} (h : 1 ≤ cs.length) :
    (fullRows cs).length < cs.length := by
  unfold fullRows dropnaRows indicatorRows
  rw [List.filterMap_map]
  have h0 : (0 : ℕ) ∈ List.range cs.length := List.mem_range.mpr (by omega)
  refine Nat.lt_of_lt_of_le (length_filterMap_lt_of_none _ (List.range cs.length) 0 h0 ?_)
    (le_of_eq (List.length_range _))
  apply toFullRow?_none_of_ema9
  show emaCol 9 cs 0 = none
  exact emaCol_none_of_lt (by norm_num)

theorem fullRows_eq_nil_of_short {cs : List ℚ} (h : cs.length ≤ 25) :
    fullRows cs = [] := by
  unfold fullRows dropnaRows indicatorRows
  rw [List.filterMap_map]
  apply List.filterMap_eq_nil_iff.mpr
  intro i hi
  have hi25 : i < 25 := by
    have := List.mem_range.mp hi
    omega
  exact toFullRow?_none_of_macd (macdCol_none_of_lt hi25)

theorem mkMensagem_ne_empty (a m s : String) (c : ℚ) : mkMensagem a m s c ≠ "" := by
  unfold mkMensagem
  intro h
  have hlen := congrArg String.length h
  simp only [String.length_append] at hlen
  have h11 : ("Sinal para " : String).length = 11 := rfl
  rw [h11] at hlen
  have h0 : ("" : String).length = 0 := rfl
  rw [h0] at hlen
  omega

/-! ### Branch characterizations of the evaluator -/

theorem analisar_df_none (a m : String) (sd td : ℚ) :
    analisar_ativo none a m sd td = ⟨none, [], false, DfAfter.unchanged⟩ := rfl

theorem analisar_short {l : List Val} (a m : String) (sd td : ℚ)
    (h : l.length < 21) :
    analisar_ativo (some l) a m sd td = ⟨none, [], false, DfAfter.unchanged⟩ := by
  simp [analisar_ativo, h]

theorem analisar_error {l : List Val} (a m : String) (sd td : ℚ)
    (h21 : ¬ l.length < 21) (hc : closes? l = none) :
    analisar_ativo (some l) a m sd td = ⟨none, [], true, DfAfter.unchanged⟩ := by
  simp [analisar_ativo, analisar_try_body, h21, hc]

theorem analisar_no_rows {l : List Val} {cs : List ℚ} (a m : String) (sd td : ℚ)
    (h21 : ¬ l.length < 21) (hc : closes? l = some cs)
    (hlast : (fullRows cs).getLast? = none) :
    analisar_ativo (some l) a m sd td =
      ⟨none, [], true, DfAfter.augmented (fullRows cs)⟩ := by
  simp [analisar_ativo, analisar_try_body, h21, hc, hlast]

theorem analisar_last_row {l : List Val} {cs : List ℚ} {r : FullRow}
    (a m : String) (sd td : ℚ)
    (h21 : ¬ l.length < 21) (hc : closes? l = some cs)
    (hlast : (fullRows cs).getLast? = some r) :
    analisar_ativo (some l) a m sd td =
      if decisao r = "Neutro" then
        ⟨none, [], true, DfAfter.augmented (fullRows cs)⟩
      else
        ⟨some (buildSignal a sd td r (decisao r) (mkMensagem a m (decisao r) r.close)),
         [mkMensagem a m (decisao r) r.close], true,
         DfAfter.augmented (fullRows cs)⟩ := by
  by_cases hdec : decisao r = "Neutro" <;>
    simp [analisar_ativo, analisar_try_body, h21, hc, hlast, hdec]

theorem decisao_cases (r : FullRow) :
    decisao r = "Compra" ∨ decisao r = "Venda" ∨ decisao r = "Neutro" := by
  unfold decisao
  split_ifs <;> simp

/-- Shape of every returned signal: it is built by `buildSignal` from the last
remaining row with a non-neutral decision and the formatted message. -/
theorem signal_some_shape {l : List Val} {a m : String} {sd td : ℚ} {s : Signal}
    (h : (analisar_ativo (some l) a m sd td).signal = some s) :
    ∃ cs r, closes? l = some cs ∧ (fullRows cs).getLast? = some r ∧
      decisao r ≠ "Neutro" ∧
      s = buildSignal a sd td r (decisao r) (mkMensagem a m (decisao r) r.close) := by
  by_cases h21 : l.length < 21
  · rw [analisar_short a m sd td h21] at h
    simp at h
  · cases hc : closes? l with
    | none =>
      rw [analisar_error a m sd td h21 hc] at h
      simp at h
    | some cs =>
      cases hlast : (fullRows cs).getLast? with
      | none =>
        rw [analisar_no_rows a m sd td h21 hc hlast] at h
        simp at h
      | some r =>
        rw [analisar_last_row a m sd td h21 hc hlast] at h
        by_cases hdec : decisao r = "Neutro"
        · rw [if_pos hdec] at h
          simp at h
        · rw [if_neg hdec] at h
          simp only [Option.some.injEq] at h
          exact ⟨cs, r, rfl, hlast, hdec, h.symm⟩

/-! ### Concrete series used by the witnesses -/

/-- A constant 26-bar series: long enough for every indicator, and its last
remaining row has `close = EMA9` and `RSI = 100`, so the decision is neutral. -/
def constSeries : List Val := List.replicate 26 (Val.num 1)

/-- The last remaining row of the constant series. -/
def rowNeutral : FullRow := ⟨1, 1, 1, 0, 100, (1, 0), (1, 0)⟩

/-- A 27-bar series declining by 1 per bar and then ticking up to 79.2 on the
last bar: the last close sits above its 9-period EMA while the RSI stays below
30, which fires the Buy branch. -/
def buyCloses : List ℚ :=
  [100, 99, 98, 97, 96, 95, 94, 93, 92, 91, 90, 89, 88, 87, 86, 85,
   84, 83, 82, 81, 80, 79, 78, 77, 76, 75, 396/5]

/-- The same Buy-firing series as evaluator input. -/
def buySeries : List Val := buyCloses.map Val.num

/-- The signal dictionary the evaluator produces on `buySeries` with both
deviation fractions set to the default `0.003`. -/
def buySignal : Signal :=
  { ativo := "EURUSD=X"
    sinal := "Compra"
    preco_entrada := 396/5
    stop_loss := 98703/1250
    take_profit := 99297/1250
    mensagem := "Sinal para EURUSD=X (Forex): Compra @ 79.2000" }

/-- A 21-bar constant series: it passes the length guard but the 26-period
slow EMA of the MACD is undefined on every bar, so `dropna` removes all rows. -/
def shortConst : List Val := List.replicate 21 (Val.num 1)

/-- A 21-bar series of malformed cells: it passes the length guard and makes
the first indicator computation raise inside the `try` block. -/
def malformedSeries : List Val := List.replicate 21 Val.malformed

/-! ### The claims -/

/-- C1: for every price series that passes the length and warm-up guards, the
direction is decided solely by the last remaining row: close above the
9-period EMA with RSI below 30 gives Buy, close below the 9-period EMA with
RSI above 70 gives Sell, and in every other case no signal object is
produced. -/
theorem analisar_decision_by_last_row (l : List Val) (cs : List ℚ) (r : FullRow)
    (a m : String) (sd td : ℚ)
    (h21 : ¬ l.length < 21) (hc : closes? l = some cs)
    (hlast : (fullRows cs).getLast? = some r) :
    (r.close > r.ema9 ∧ r.rsi < 30 →
      ∃ s, (analisar_ativo (some l) a m sd td).signal = some s ∧ s.sinal = "Compra") ∧
    (r.close < r.ema9 ∧ r.rsi > 70 →
      ∃ s, (analisar_ativo (some l) a m sd td).signal = some s ∧ s.sinal = "Venda") ∧
    (¬(r.close > r.ema9 ∧ r.rsi < 30) → ¬(r.close < r.ema9 ∧ r.rsi > 70) →
      (analisar_ativo (some l) a m sd td).signal = none) := by
  have hres := analisar_last_row a m sd td h21 hc hlast
  refine ⟨?_, ?_, ?_⟩
  · intro hb
    have hdC : decisao r = "Compra" := by
      unfold decisao
      rw [if_pos hb]
    rw [hres, hdC, if_neg (by decide : ¬ ("Compra" : String) = "Neutro")]
    exact ⟨_, rfl, rfl⟩
  · intro hs
    have hnb : ¬(r.close > r.ema9 ∧ r.rsi < 30) := fun hb => lt_asymm hs.1 hb.1
    have hdV : decisao r = "Venda" := by
      unfold decisao
      rw [if_neg hnb, if_pos hs]
    rw [hres, hdV, if_neg (by decide : ¬ ("Venda" : String) = "Neutro")]
    exact ⟨_, rfl, rfl⟩
  · intro hnb hns
    have hdN : decisao r = "Neutro" := by
      unfold decisao
      rw [if_neg hnb, if_neg hns]
    rw [hres, hdN, if_pos rfl]

set_option maxRecDepth 400000 in
theorem analisar_decision_by_last_row_witness :
    (¬ constSeries.length < 21 ∧ closes? constSeries = some (List.replicate 26 1) ∧
      (fullRows (List.replicate 26 1)).getLast? = some rowNeutral ∧
      ¬(rowNeutral.close > rowNeutral.ema9 ∧ rowNeutral.rsi < 30) ∧
      ¬(rowNeutral.close < rowNeutral.ema9 ∧ rowNeutral.rsi > 70)) ∧
    (analisar_ativo (some constSeries) "AAPL" "Ações" (3/1000) (3/1000)).signal = none :=
  ⟨⟨by decide, by decide, by decide, by decide, by decide⟩,
   (analisar_decision_by_last_row constSeries (List.replicate 26 1) rowNeutral
      "AAPL" "Ações" (3/1000) (3/1000) (by decide) (by decide) (by decide)).2.2
      (by decide) (by decide)⟩

/-- C2: every returned signal has entry equal to the last remaining row's
close; for Buy, stop = entry × (1 − stopDev) and target = entry × (1 + takeDev);
for Sell, stop = entry × (1 + stopDev) and target = entry × (1 − stopDev) —
the Sell target reuses the stop-deviation fraction. -/
theorem signal_prices_from_last_row (l : List Val) (a m : String) (sd td : ℚ)
    (s : Signal)
    (h : (analisar_ativo (some l) a m sd td).signal = some s) :
    ∃ cs r, closes? l = some cs ∧ (fullRows cs).getLast? = some r ∧
      s.preco_entrada = r.close ∧
      (s.sinal = "Compra" ∨ s.sinal = "Venda") ∧
      (s.sinal = "Compra" →
        s.stop_loss = r.close * (1 - sd) ∧ s.take_profit = r.close * (1 + td)) ∧
      (s.sinal = "Venda" →
        s.stop_loss = r.close * (1 + sd) ∧ s.take_profit = r.close * (1 - sd)) := by
  obtain ⟨cs, r, hc, hlast, hdec, hs⟩ := signal_some_shape h
  subst hs
  refine ⟨cs, r, hc, hlast, rfl, ?_, ?_, ?_⟩
  · rcases decisao_cases r with h1 | h2 | h3
    · exact Or.inl h1
    · exact Or.inr h2
    · exact absurd h3 hdec
  · intro hcompra
    have hdC : decisao r = "Compra" := hcompra
    constructor
    · show (if decisao r = "Compra" then r.close * (1 - sd) else r.close * (1 + sd)) =
        r.close * (1 - sd)
      rw [if_pos hdC]
    · show (if decisao r = "Compra" then r.close * (1 + td) else r.close * (1 - sd)) =
        r.close * (1 + td)
      rw [if_pos hdC]
  · intro hvenda
    have hdV : decisao r = "Venda" := hvenda
    have hnc : ¬ decisao r = "Compra" := by
      rw [hdV]
      decide
    constructor
    · show (if decisao r = "Compra" then r.close * (1 - sd) else r.close * (1 + sd)) =
        r.close * (1 + sd)
      rw [if_neg hnc]
    · show (if decisao r = "Compra" then r.close * (1 + td) else r.close * (1 - sd)) =
        r.close * (1 - sd)
      rw [if_neg hnc]

set_option maxRecDepth 400000 in
theorem signal_prices_from_last_row_witness :
    ((analisar_ativo (some buySeries) "EURUSD=X" "Forex" (3/1000) (3/1000)).signal =
      some buySignal) ∧
    (∃ cs r, closes? buySeries = some cs ∧ (fullRows cs).getLast? = some r ∧
      buySignal.preco_entrada = r.close ∧
      (buySignal.sinal = "Compra" ∨ buySignal.sinal = "Venda") ∧
      (buySignal.sinal = "Compra" →
        buySignal.stop_loss = r.close * (1 - 3/1000) ∧
        buySignal.take_profit = r.close * (1 + 3/1000)) ∧
      (buySignal.sinal = "Venda" →
        buySignal.stop_loss = r.close * (1 + 3/1000) ∧
        buySignal.take_profit = r.close * (1 - 3/1000))) :=
  ⟨by decide,
   signal_prices_from_last_row buySeries "EURUSD=X" "Forex" (3/1000) (3/1000)
     buySignal (by decide)⟩

/-- C3: every returned signal carries a non-empty message and, assuming a
positive entry and both deviation fractions strictly between 0 and 1, its stop
and target lie strictly on the correct side of entry: stop < entry < target
for Buy and target < entry < stop for Sell. -/
theorem signal_invariant (l : List Val) (a m : String) (sd td : ℚ) (s : Signal)
    (h : (analisar_ativo (some l) a m sd td).signal = some s)
    (he : 0 < s.preco_entrada)
    (hsd0 : 0 < sd) (hsd1 : sd < 1) (htd0 : 0 < td) (htd1 : td < 1) :
    s.mensagem ≠ "" ∧
    (s.sinal = "Compra" → s.stop_loss < s.preco_entrada ∧
      s.preco_entrada < s.take_profit) ∧
    (s.sinal = "Venda" → s.take_profit < s.preco_entrada ∧
      s.preco_entrada < s.stop_loss) := by
  obtain ⟨cs, r, hc, hlast, hdec, hs⟩ := signal_some_shape h
  subst hs
  have hcl : 0 < r.close := he
  refine ⟨mkMensagem_ne_empty a m (decisao r) r.close, ?_, ?_⟩
  · intro hcompra
    have hdC : decisao r = "Compra" := hcompra
    constructor
    · show (if decisao r = "Compra" then r.close * (1 - sd) else r.close * (1 + sd)) <
        r.close
      rw [if_pos hdC]
      nlinarith [mul_pos hcl hsd0]
    · show r.close <
        (if decisao r = "Compra" then r.close * (1 + td) else r.close * (1 - sd))
      rw [if_pos hdC]
      nlinarith [mul_pos hcl htd0]
  · intro hvenda
    have hdV : decisao r = "Venda" := hvenda
    have hnc : ¬ decisao r = "Compra" := by
      rw [hdV]
      decide
    constructor
    · show (if decisao r = "Compra" then r.close * (1 + td) else r.close * (1 - sd)) <
        r.close
      rw [if_neg hnc]
      nlinarith [mul_pos hcl hsd0]
    · show r.close <
        (if decisao r = "Compra" then r.close * (1 - sd) else r.close * (1 + sd))
      rw [if_neg hnc]
      nlinarith [mul_pos hcl hsd0]

set_option maxRecDepth 400000 in
theorem signal_invariant_witness :
    ((analisar_ativo (some buySeries) "EURUSD=X" "Forex" (3/1000) (3/1000)).signal =
        some buySignal ∧
      0 < buySignal.preco_entrada ∧ 0 < (3/1000 : ℚ) ∧ (3/1000 : ℚ) < 1) ∧
    (buySignal.mensagem ≠ "" ∧
      (buySignal.sinal = "Compra" → buySignal.stop_loss < buySignal.preco_entrada ∧
        buySignal.preco_entrada < buySignal.take_profit) ∧
      (buySignal.sinal = "Venda" → buySignal.take_profit < buySignal.preco_entrada ∧
        buySignal.preco_entrada < buySignal.stop_loss)) :=
  ⟨⟨by decide, by decide, by decide, by decide⟩,
   signal_invariant buySeries "EURUSD=X" "Forex" (3/1000) (3/1000) buySignal
     (by decide) (by decide) (by decide) (by decide) (by decide) (by decide)⟩

/-- C4: for an absent series and for every series of fewer than 21 bars, the
evaluator returns no signal without entering the indicator computation and
without invoking the notifier. -/
theorem guard_returns_nothing (df : Option (List Val)) (a m : String) (sd td : ℚ)
    (h : df = none ∨ ∃ l, df = some l ∧ l.length < 21) :
    analisar_ativo df a m sd td = ⟨none, [], false, DfAfter.unchanged⟩ := by
  rcases h with rfl | ⟨l, rfl, hl⟩
  · rfl
  · exact analisar_short a m sd td hl

theorem guard_returns_nothing_witness :
    ((none : Option (List Val)) = none ∨
      ∃ l, (none : Option (List Val)) = some l ∧ l.length < 21) ∧
    analisar_ativo none "EURUSD=X" "Forex" (3/1000) (3/1000) =
      ⟨none, [], false, DfAfter.unchanged⟩ :=
  ⟨Or.inl rfl,
   guard_returns_nothing none "EURUSD=X" "Forex" (3/1000) (3/1000) (Or.inl rfl)⟩

/-- C5: whenever every bar has some undefined indicator value, so that no row
survives `dropna`, the evaluator returns no signal (and sends nothing). -/
theorem no_defined_rows_no_signal (l : List Val) (cs : List ℚ)
    (a m : String) (sd td : ℚ)
    (hc : closes? l = some cs) (hrows : fullRows cs = []) :
    (analisar_ativo (some l) a m sd td).signal = none ∧
    (analisar_ativo (some l) a m sd td).sent = [] := by
  by_cases h21 : l.length < 21
  · rw [analisar_short a m sd td h21]
    exact ⟨rfl, rfl⟩
  · have hlast : (fullRows cs).getLast? = none := by
      rw [hrows]
      rfl
    rw [analisar_no_rows a m sd td h21 hc hlast]
    exact ⟨rfl, rfl⟩

set_option maxRecDepth 400000 in
theorem no_defined_rows_no_signal_witness :
    (closes? shortConst = some (List.replicate 21 1) ∧
      fullRows (List.replicate 21 1) = []) ∧
    ((analisar_ativo (some shortConst) "GC=F" "Commodities" (3/1000) (3/1000)).signal =
        none ∧
      (analisar_ativo (some shortConst) "GC=F" "Commodities" (3/1000) (3/1000)).sent =
        []) :=
  ⟨⟨by decide, by decide⟩,
   no_defined_rows_no_signal shortConst (List.replicate 21 1) "GC=F" "Commodities"
     (3/1000) (3/1000) (by decide) (by decide)⟩

/-- C6: an exception inside the `try` block (here: a malformed close making
the indicator computation raise) is caught and converted to "no signal"; the
evaluator is a total function, so no error propagates to the caller. -/
theorem exception_converted_to_no_signal (l : List Val) (a m : String)
    (sd td : ℚ) (e : String)
    (h : analisar_try_body l a m sd td = Except.error e) :
    (analisar_ativo (some l) a m sd td).signal = none ∧
    (analisar_ativo (some l) a m sd td).sent = [] := by
  by_cases h21 : l.length < 21
  · rw [analisar_short a m sd td h21]
    exact ⟨rfl, rfl⟩
  · have hres : analisar_ativo (some l) a m sd td =
        ⟨none, [], true, DfAfter.unchanged⟩ := by
      simp [analisar_ativo, h21, h]
    rw [hres]
    exact ⟨rfl, rfl⟩

theorem exception_converted_to_no_signal_witness :
    (analisar_try_body malformedSeries "AAPL" "Ações" (3/1000) (3/1000) =
      Except.error "could not convert string to float") ∧
    ((analisar_ativo (some malformedSeries) "AAPL" "Ações" (3/1000) (3/1000)).signal =
        none ∧
      (analisar_ativo (some malformedSeries) "AAPL" "Ações" (3/1000) (3/1000)).sent =
        []) :=
  ⟨by rfl,
   exception_converted_to_no_signal malformedSeries "AAPL" "Ações" (3/1000) (3/1000)
     "could not convert string to float" (by rfl)⟩

/-- C7: the fetcher never propagates an exception: a transport failure (the
download raising) and an empty upstream payload both yield "no data"
(`none`). -/
theorem obter_dados_no_data (download : String → String → String → FetchResult)
    (t tf : String)
    (h : (∃ e, download t (periodFor tf) tf = FetchResult.raise e) ∨
      download t (periodFor tf) tf = FetchResult.ok []) :
    obter_dados download t tf = none := by
  rcases h with ⟨e, he⟩ | he
  · simp [obter_dados, he]
  · simp [obter_dados, he]

theorem obter_dados_no_data_witness :
    ((∃ e, (fun _ _ _ => FetchResult.ok ([] : List Bar)) "EURUSD=X"
        (periodFor "15m") "15m" = FetchResult.raise e) ∨
      (fun _ _ _ => FetchResult.ok ([] : List Bar)) "EURUSD=X"
        (periodFor "15m") "15m" = FetchResult.ok []) ∧
    obter_dados (fun _ _ _ => FetchResult.ok ([] : List Bar)) "EURUSD=X" "15m" =
      none :=
  ⟨Or.inr rfl,
   obter_dados_no_data (fun _ _ _ => FetchResult.ok ([] : List Bar))
     "EURUSD=X" "15m" (Or.inr rfl)⟩

/-- The state of the series object after the first evaluator call on
`buySeries`: the in-place mutation leaves the object holding only the rows
that survived `dropna`, so a second call receives this object, not the
original 27-bar series. -/
def buySeriesAfterFirstCall : Option (List Val) :=
  match (analisar_ativo (some buySeries) "EURUSD=X" "Forex" (3/1000) (3/1000)).dfAfter with
  | DfAfter.unchanged => some buySeries
  | DfAfter.augmented rows => some (rows.map (fun r => Val.num r.close))

set_option maxRecDepth 400000 in
/-- C8 counterexample: calling the evaluator twice with the same series object
does not yield identical results: the first call on `buySeries` returns a Buy
signal and mutates the object down to 2 rows, so the second call on the same
object fails the 21-bar guard and returns nothing. -/
theorem same_object_twice_counterexample :
    (analisar_ativo (some buySeries) "EURUSD=X" "Forex" (3/1000) (3/1000)).signal =
      some buySignal ∧
    (analisar_ativo buySeriesAfterFirstCall "EURUSD=X" "Forex"
      (3/1000) (3/1000)).signal = none ∧
    (analisar_ativo (some buySeries) "EURUSD=X" "Forex" (3/1000) (3/1000)).signal ≠
      (analisar_ativo buySeriesAfterFirstCall "EURUSD=X" "Forex"
        (3/1000) (3/1000)).signal := by
  decide

/-- C8 (amended): the evaluator is a pure function of its arguments, so two
calls given equal series contents (for example, a fresh copy of the series for
the second call) and the same name, group, and deviation fractions return
identical results in every field. -/
theorem analisar_deterministic_on_equal_series (df df' : Option (List Val))
    (a m : String) (sd td : ℚ) (h : df = df') :
    analisar_ativo df a m sd td = analisar_ativo df' a m sd td := by
  rw [h]

theorem analisar_deterministic_on_equal_series_witness :
    (some constSeries = some constSeries) ∧
    analisar_ativo (some constSeries) "AAPL" "Ações" (3/1000) (3/1000) =
      analisar_ativo (some constSeries) "AAPL" "Ações" (3/1000) (3/1000) :=
  ⟨rfl,
   analisar_deterministic_on_equal_series (some constSeries) (some constSeries)
     "AAPL" "Ações" (3/1000) (3/1000) rfl⟩

/-- C9: on every series of at least 21 bars whose indicator computation does
not raise, the call leaves the caller's dataframe augmented with the six
indicator columns and with every warm-up row removed — strictly fewer rows
than the input, so the input object is not left unchanged. -/
theorem analisar_mutates_dataframe (l : List Val) (cs : List ℚ)
    (a m : String) (sd td : ℚ)
    (h21 : 21 ≤ l.length) (hc : closes? l = some cs) :
    (analisar_ativo (some l) a m sd td).dfAfter = DfAfter.augmented (fullRows cs) ∧
    (fullRows cs).length < l.length := by
  have hlen := closes?_length hc
  have hn21 : ¬ l.length < 21 := by omega
  constructor
  · cases hlast : (fullRows cs).getLast? with
    | none => rw [analisar_no_rows a m sd td hn21 hc hlast]
    | some r =>
      rw [analisar_last_row a m sd td hn21 hc hlast]
      by_cases hdec : decisao r = "Neutro"
      · rw [if_pos hdec]
      · rw [if_neg hdec]
  · have hlt : (fullRows cs).length < cs.length := fullRows_length_lt (by omega)
    omega

set_option maxRecDepth 400000 in
theorem analisar_mutates_dataframe_witness :
    (21 ≤ buySeries.length ∧ closes? buySeries = some buyCloses) ∧
    ((analisar_ativo (some buySeries) "EURUSD=X" "Forex" (3/1000) (3/1000)).dfAfter =
        DfAfter.augmented (fullRows buyCloses) ∧
      (fullRows buyCloses).length < buySeries.length) :=
  ⟨⟨by decide, by decide⟩,
   analisar_mutates_dataframe buySeries buyCloses "EURUSD=X" "Forex"
     (3/1000) (3/1000) (by decide) (by decide)⟩

/-- C10: every series of 21 to 25 bars yields no signal: the MACD line uses
the library-default 26-period slow EMA, so no bar has all indicators defined,
`dropna` removes every row, and the empty-frame branch returns nothing. -/
theorem warmup_21_to_25_no_signal (l : List Val) (a m : String) (sd td : ℚ)
    (h21 : 21 ≤ l.length) (h25 : l.length ≤ 25) :
    (analisar_ativo (some l) a m sd td).signal = none := by
  have hn21 : ¬ l.length < 21 := by omega
  cases hc : closes? l with
  | none => rw [analisar_error a m sd td hn21 hc]
  | some cs =>
    have hcs := closes?_length hc
    have hnil : fullRows cs = [] := fullRows_eq_nil_of_short (by omega)
    have hlast : (fullRows cs).getLast? = none := by
      rw [hnil]
      rfl
    rw [analisar_no_rows a m sd td hn21 hc hlast]

theorem warmup_21_to_25_no_signal_witness :
    (21 ≤ shortConst.length ∧ shortConst.length ≤ 25) ∧
    (analisar_ativo (some shortConst) "BTC-USD" "Criptomoedas"
      (3/1000) (3/1000)).signal = none :=
  ⟨⟨by decide, by decide⟩,
   warmup_21_to_25_no_signal shortConst "BTC-USD" "Criptomoedas"
     (3/1000) (3/1000) (by decide) (by decide)⟩
